import Mathlib

/-!
Shallow embedding of the Crawl-server repository (src/web.py, src/api.py).

The crawler engine (crawl4ai's `AsyncWebCrawler.arun`) is an external
collaborator: each call either returns a result object (`success`,
`markdown_v2.raw_markdown`, `markdown_v2.fit_markdown`, `error_message`)
or raises an exception.  A run is therefore parametrised by an outcome
oracle `fetch : Nat → Outcome` giving the outcome of the `arun` call for
the item at global index `i` (determined by that item's URL and session),
and by a memory oracle `mem : Nat → Nat` giving the `rss` value returned
by the `k`-th `process.memory_info()` call of the run.
-/

set_option autoImplicit false

namespace CrawlServer

/-- The result object returned by a successful (non-raising) `crawler.arun`
call: `result.success`, `result.markdown_v2.raw_markdown`,
`result.markdown_v2.fit_markdown`, `result.error_message`. -/
structure CrawlResult where
  success : Bool
  raw_markdown : String
  fit_markdown : String
  error_message : String
deriving DecidableEq, Repr

/-- Outcome of one `crawler.arun(...)` call: either it returns a
`CrawlResult` or it raises an exception (carried as its message). -/
inductive Outcome where
  | ok (r : CrawlResult)
  | exn (e : String)
deriving DecidableEq, Repr

/-- Whether the `arun` call raised an exception. -/
def Outcome.isExn : Outcome → Bool
  | .ok _ => false
  | .exn _ => true

/-- Whether the item failed: the call raised, or it returned a result with
`success = False`. -/
def Outcome.isFailure : Outcome → Bool
  | .ok r => !r.success
  | .exn _ => true

/-- Per-item evaluation in `crawl_parallel` (web.py lines 170-178):
an exception value from `gather` or a `success = False` result appends
the empty string, a success appends `result.markdown_v2.raw_markdown`. -/
def itemContent : Outcome → String
  | .ok r => if r.success then r.raw_markdown else ""
  | .exn _ => ""

/-- Per-item evaluation in `fetch_urls` (web.py lines 54-67): a raised
exception is caught and appends the empty string, a `success = False`
result appends the empty string, a success appends
`result.markdown_v2.fit_markdown`. -/
def fetchItemContent : Outcome → String
  | .ok r => if r.success then r.fit_markdown else ""
  | .exn _ => ""

/-- Resource events of a run: starting the crawler (`crawler.start()` /
entering the context), one `arun` call with its session id, and closing
the crawler (`crawler.close()`). -/
inductive Ev where
  | start
  | close
  | fetchEv (i : Nat) (session : String)
deriving DecidableEq, Repr

/-- `log_memory` (web.py lines 128-133): reads the current rss (the next
sample of the memory oracle) and raises the running peak to it if larger.
State is `(peak_memory, next sample index)`. -/
def logMemory (mem : Nat → Nat) (s : Nat × Nat) : Nat × Nat :=
  (max s.1 (mem s.2), s.2 + 1)

/-- `asyncio.gather(*tasks, return_exceptions=True)` over the tasks of one
batch (web.py lines 154-164): tasks are created in batch order for global
indices `i, i+1, ...` and gather returns their outcomes in task order,
exceptions included as values. -/
def gather (fetch : Nat → Outcome) (i : Nat) (batch : List String) : List Outcome :=
  match batch with
  | [] => []
  | _ :: rest => fetch i :: gather fetch (i + 1) rest

/-- The `arun` events of one parallel batch, in dispatch order; the session
id is `f"parallel_session_{i + j}"` (web.py line 156). -/
def batchEvents (i : Nat) (batch : List String) : List Ev :=
  match batch with
  | [] => []
  | _ :: rest => Ev.fetchEv i ("parallel_session_" ++ toString i) :: batchEvents (i + 1) rest

/-- The `arun` events of a sequential run starting at global index `i`:
input order, all with the single shared session id `"session1"`
(web.py line 102). -/
def sessionEvents (i : Nat) (urls : List String) : List Ev :=
  match urls with
  | [] => []
  | _ :: rest => Ev.fetchEv i "session1" :: sessionEvents (i + 1) rest

/-- The per-index contents list: element `j` is the parallel per-item
evaluation of the outcome at global index `i + j`. -/
def expectedContents (fetch : Nat → Outcome) (i : Nat) (urls : List String) : List String :=
  match urls with
  | [] => []
  | _ :: rest => itemContent (fetch i) :: expectedContents fetch (i + 1) rest

/-- Maximum of `acc` and the `n` memory samples `mem lo, ..., mem (lo+n-1)`,
folded left like the running `peak_memory` update. -/
def foldMax (mem : Nat → Nat) (acc lo n : Nat) : Nat :=
  match n with
  | 0 => acc
  | m + 1 => foldMax mem (max acc (mem lo)) (lo + 1) m

/-- Number of iterations of `for i in range(0, n, kp+1)`: the number of
batches of a list of length `n` under batch size `kp + 1`. -/
def numBatches (kp n : Nat) : Nat :=
  match n with
  | 0 => 0
  | m + 1 => numBatches kp (m - kp) + 1
termination_by n
decreasing_by omega

/-- The batch loop of `crawl_parallel` (web.py lines 150-178) with batch
size `kp + 1`, processing the remaining `urls` whose first element has
global index `i`, with current peak `peak` and next memory-sample index
`samp`.  Returns `(contents, peak, next sample index, arun events)`. -/
def parLoop (fetch : Nat → Outcome) (mem : Nat → Nat) (kp : Nat)
    (urls : List String) (i peak samp : Nat) :
    List String × Nat × Nat × List Ev :=
  match urls with
  | [] => ([], peak, samp, [])
  | u :: rest =>
    -- batch = urls[i : i + max_concurrent]
    let batch := u :: rest.take kp
    -- log_memory before the batch, gather, log_memory after the batch
    let s1 := logMemory mem (peak, samp)
    let results := gather fetch i batch
    let s2 := logMemory mem s1
    -- per-item evaluation over zip(batch, results)
    let out := (batch.zip results).map (fun p => itemContent p.2)
    let r := parLoop fetch mem kp (rest.drop kp) (i + (kp + 1)) s2.1 s2.2
    (out ++ r.1, r.2.1, r.2.2.1, batchEvents i batch ++ r.2.2.2)
termination_by urls.length
decreasing_by simp [List.length_drop]; omega

/-- Result of one `crawl_parallel` run: the returned contents (or the
propagated exception), the final `peak_memory`, and the resource events. -/
structure ParRun where
  result : Except String (List String)
  peak : Nat
  trace : List Ev

/-- `crawl_parallel` (web.py lines 121-187).  The crawler is started before
the `try`; the batch loop runs inside it; the `finally` closes the crawler
and takes one final memory sample.  `range(0, len(urls), 0)` raises
`ValueError`, which the `finally` block does not suppress. -/
def crawl_parallel (fetch : Nat → Outcome) (mem : Nat → Nat)
    (urls : List String) (max_concurrent : Nat) : ParRun :=
  match max_concurrent with
  | 0 =>
    -- range() arg 3 must not be zero: the loop header raises at once,
    -- the finally block still closes the crawler and logs memory
    let s := logMemory mem (0, 0)
    { result := Except.error "ValueError: range() arg 3 must not be zero"
      peak := s.1
      trace := [Ev.start, Ev.close] }
  | kp + 1 =>
    let r := parLoop fetch mem kp urls 0 0 0
    -- finally: close the crawler, then the final log_memory
    let s := logMemory mem (r.2.1, r.2.2.1)
    { result := Except.ok r.1
      peak := s.1
      trace := Ev.start :: r.2.2.2 ++ [Ev.close] }

/-- The loop body of `crawl_sequential` (web.py lines 102-114): each URL is
fetched with the shared session `"session1"`; a `success = False` result
appends the empty string; a raised exception propagates (there is no
per-item `except`).  Returns the result (or error) and the `arun` events
performed. -/
def seqLoop (fetch : Nat → Outcome) (urls : List String) (i : Nat) :
    Except String (List String) × List Ev :=
  match urls with
  | [] => (Except.ok [], [])
  | _ :: rest =>
    match fetch i with
    | Outcome.exn e => (Except.error e, [Ev.fetchEv i "session1"])
    | Outcome.ok r =>
      let content := if r.success then r.raw_markdown else ""
      let t := seqLoop fetch rest (i + 1)
      (Except.map (fun l => content :: l) t.1, Ev.fetchEv i "session1" :: t.2)

/-- `crawl_sequential` (web.py lines 74-119): start the crawler, run the
loop inside `try`, close the crawler in `finally` on every path. -/
def crawl_sequential (fetch : Nat → Outcome) (urls : List String) :
    Except String (List String) × List Ev :=
  let t := seqLoop fetch urls 0
  (t.1, Ev.start :: t.2 ++ [Ev.close])

/-- The per-URL loop of `fetch_urls` (web.py lines 53-67): every outcome,
exceptions included, contributes one slot. -/
def fetchLoop (fetch : Nat → Outcome) (urls : List String) (i : Nat) : List String :=
  match urls with
  | [] => []
  | _ :: rest => fetchItemContent (fetch i) :: fetchLoop fetch rest (i + 1)

/-- `fetch_urls` (web.py lines 25-72): empty input returns `[]` before any
crawler is created; otherwise the whole body is wrapped in
`try ... except: return []`, where `setup` is the outcome of creating and
entering the `AsyncWebCrawler` context. -/
def fetch_urls (setup : Except String Unit) (fetch : Nat → Outcome)
    (urls : List String) : List String :=
  match urls with
  | [] => []
  | _ =>
    match setup with
    | Except.error _ => []
    | Except.ok _ => fetchLoop fetch urls 0

/-- A namespace-qualified XML tag, as matched by
`root.findall('.//ns:loc', namespace)`. -/
structure QName where
  ns : String
  name : String
deriving DecidableEq, Repr

/-- The sitemap namespace bound to `ns` in web.py line 207. -/
def sitemapNS : String := "http://www.sitemaps.org/schemas/sitemap/0.9"

/-- The qualified tag the resolver's `findall` matches. -/
def locTag : QName := ⟨sitemapNS, "loc"⟩

/-- An `ElementTree` element: tag, text and child elements.  (For sitemap
`loc` elements the text is always present; absent text is modelled as the
empty string.) -/
inductive XmlNode where
  | elem (tag : QName) (text : String) (children : List XmlNode)

/-- Texts of all `loc` descendants of the given elements, in document
order (each element itself first if it matches, then its descendants,
then its following siblings) — the semantics of `.//ns:loc`. -/
def locTextsList : List XmlNode → List String
  | [] => []
  | XmlNode.elem t txt kids :: cs =>
      (if t = locTag then [txt] else []) ++ locTextsList kids ++ locTextsList cs

/-- `[loc.text for loc in root.findall('.//ns:loc', namespace)]`:
all `loc` descendants of the root, in document order. -/
def locTextsNode (root : XmlNode) : List String :=
  match root with
  | XmlNode.elem _ _ children => locTextsList children

/-- `get_pydantic_ai_docs_urls` (web.py lines 189-213).  `httpGet` models
`requests.get` plus `raise_for_status` (transport error or non-2xx status
becomes an error); `fromstring` models `ElementTree.fromstring`.  Any
raised exception is caught and mapped to `[]`.  Note there is no
recursion: only the single document at `sitemap_url` is fetched. -/
def get_pydantic_ai_docs_urls (httpGet : String → Except String String)
    (fromstring : String → Except String XmlNode) (sitemap_url : String) :
    List String :=
  match httpGet sitemap_url with
  | Except.error _ => []
  | Except.ok content =>
    match fromstring content with
    | Except.error _ => []
    | Except.ok root => locTextsNode root

/-- A Python runtime value reaching `jsonify` in the `/crawl` handler:
either a list of strings, or — as actually happens in api.py line 32 —
the coroutine object produced by calling the `async def fetch_urls`
without awaiting it. -/
inductive PyValue where
  | strList (xs : List String)
  | coroutine (name : String)

/-- Flask's `jsonify` on such a value: a list of strings serialises, a
coroutine object is not JSON serialisable and raises `TypeError`. -/
def jsonify_value : PyValue → Except String (List String)
  | PyValue.strList xs => Except.ok xs
  | PyValue.coroutine _ =>
      Except.error "TypeError: Object of type coroutine is not JSON serializable"

/-- Body of an HTTP reply: a JSON array of strings, or a JSON
`{detail: msg}` object. -/
inductive ReplyBody where
  | jsonList (xs : List String)
  | jsonDetail (msg : String)
deriving DecidableEq, Repr

/-- An HTTP reply: status code and body. -/
structure HttpReply where
  status : Nat
  body : ReplyBody
deriving DecidableEq, Repr

/-- The `POST /crawl` handler `crawl_urls` (api.py lines 23-39).  `parsed`
is the outcome of `CrawlRequest(**request.json)` validation (an error is
a `ValidationError`, answered 400).  The handler is a synchronous `def`
but calls the `async def fetch_urls` without awaiting it, so the value
bound to `results` is a coroutine object; `jsonify` then raises
`TypeError`, which the `except Exception` branch answers with 500. -/
def crawl_urls (parsed : Except String (List String)) : HttpReply :=
  match parsed with
  | Except.error e => ⟨400, ReplyBody.jsonDetail e⟩
  | Except.ok _ =>
    let results := PyValue.coroutine "fetch_urls"
    match jsonify_value results with
    | Except.ok xs => ⟨200, ReplyBody.jsonList xs⟩
    | Except.error e => ⟨500, ReplyBody.jsonDetail e⟩

/-- The `POST /website-url` handler `crawl_website` (api.py lines 41-65).
`parsed` is the outcome of `SitemapRequest(**request.json)` validation.
When the resolved URL list is empty the handler only logs and falls off
the end of the function, returning Python `None` (modelled as `none`);
otherwise it awaits `crawl_parallel(urls)` (default `max_concurrent = 3`)
and serialises the result, answering 500 if the crawl raised. -/
def crawl_website (parsed : Except String String)
    (httpGet : String → Except String String)
    (fromstring : String → Except String XmlNode)
    (fetch : Nat → Outcome) (mem : Nat → Nat) : Option HttpReply :=
  match parsed with
  | Except.error e => some ⟨400, ReplyBody.jsonDetail e⟩
  | Except.ok url =>
    match get_pydantic_ai_docs_urls httpGet fromstring url with
    | [] => none
    | u :: rest =>
      match (crawl_parallel fetch mem (u :: rest) 3).result with
      | Except.ok results => some ⟨200, ReplyBody.jsonList results⟩
      | Except.error e => some ⟨500, ReplyBody.jsonDetail e⟩

/-! ### Concrete fixtures used by witnesses and counterexamples -/

/-- A successful crawl result holding markdown `s` (raw) and `s ++ "-fit"`
(pruned). -/
def okOutcome (s : String) : Outcome :=
  Outcome.ok ⟨true, s, s ++ "-fit", ""⟩

/-- A returned result with `success = False`. -/
def failOutcome : Outcome :=
  Outcome.ok ⟨false, "", "", "net::ERR_NAME_NOT_RESOLVED"⟩

/-- Oracle where every `arun` call succeeds. -/
def fetchAllOk : Nat → Outcome := fun i => okOutcome (toString i)

/-- Oracle where the `arun` call at global index 1 raises and all others
succeed. -/
def fetchExnAt1 : Nat → Outcome :=
  fun i => if i = 1 then Outcome.exn "boom" else okOutcome (toString i)

/-- Oracle where the `arun` call at global index 1 returns a
`success = False` result and all others succeed. -/
def fetchFailAt1 : Nat → Outcome :=
  fun i => if i = 1 then failOutcome else okOutcome (toString i)

/-- Memory oracle: constant 1 MB-ish sample. -/
def memFlat : Nat → Nat := fun _ => 1

/-- Memory oracle whose third sample (index 2) spikes to 7. -/
def memSpike : Nat → Nat := fun i => if i = 2 then 7 else 1

/-- Qualified sitemap tag. -/
def nsQ (s : String) : QName := ⟨sitemapNS, s⟩

/-- Leaf sitemap A: a `urlset` with 2 page URLs. -/
def leafA : XmlNode :=
  XmlNode.elem (nsQ "urlset") "" [
    XmlNode.elem (nsQ "url") "" [XmlNode.elem (nsQ "loc") "https://site/a1" []],
    XmlNode.elem (nsQ "url") "" [XmlNode.elem (nsQ "loc") "https://site/a2" []]]

/-- Leaf sitemap B: a `urlset` with 3 page URLs. -/
def leafB : XmlNode :=
  XmlNode.elem (nsQ "urlset") "" [
    XmlNode.elem (nsQ "url") "" [XmlNode.elem (nsQ "loc") "https://site/b1" []],
    XmlNode.elem (nsQ "url") "" [XmlNode.elem (nsQ "loc") "https://site/b2" []],
    XmlNode.elem (nsQ "url") "" [XmlNode.elem (nsQ "loc") "https://site/b3" []]]

/-- A sitemap index referencing the two leaf sitemaps, A first. -/
def indexDoc : XmlNode :=
  XmlNode.elem (nsQ "sitemapindex") "" [
    XmlNode.elem (nsQ "sitemap") "" [XmlNode.elem (nsQ "loc") "https://site/sitemapA.xml" []],
    XmlNode.elem (nsQ "sitemap") "" [XmlNode.elem (nsQ "loc") "https://site/sitemapB.xml" []]]

/-- HTTP oracle serving the index and the two leaf sitemaps; everything
else is a 404 (raised by `raise_for_status`). -/
def testHttp : String → Except String String := fun u =>
  if u = "https://site/sitemap.xml" then Except.ok "indexBody"
  else if u = "https://site/sitemapA.xml" then Except.ok "bodyA"
  else if u = "https://site/sitemapB.xml" then Except.ok "bodyB"
  else Except.error "404 Client Error"

/-- XML parser oracle for the three bodies served by `testHttp`; any other
body fails to parse. -/
def testParse : String → Except String XmlNode := fun b =>
  if b = "indexBody" then Except.ok indexDoc
  else if b = "bodyA" then Except.ok leafA
  else if b = "bodyB" then Except.ok leafB
  else Except.error "ParseError: syntax error"

/-- HTTP oracle where every fetch times out. -/
def timeoutHttp : String → Except String String :=
  fun _ => Except.error "ConnectTimeout"

/-- HTTP oracle serving an unparseable body for every URL. -/
def garbageHttp : String → Except String String :=
  fun _ => Except.ok "not xml at all"

/-! ### Helper lemmas -/

theorem itemContent_of_isFailure {o : Outcome} (h : o.isFailure = true) :
    itemContent o = "" := by
  cases o with
  | exn e => rfl
  | ok r =>
    simp only [Outcome.isFailure, Bool.not_eq_true'] at h
    simp [itemContent, h]

theorem expectedContents_length (fetch : Nat → Outcome) :
    ∀ (urls : List String) (i : Nat),
      (expectedContents fetch i urls).length = urls.length := by
  intro urls
  induction urls with
  | nil => intro i; rfl
  | cons u rest ih => intro i; simp [expectedContents, ih]

theorem expectedContents_getD (fetch : Nat → Outcome) :
    ∀ (urls : List String) (i j : Nat), j < urls.length →
      (expectedContents fetch i urls).getD j "" = itemContent (fetch (i + j)) := by
  intro urls
  induction urls with
  | nil => intro i j h; simp at h
  | cons u rest ih =>
    intro i j h
    cases j with
    | zero => simp [expectedContents]
    | succ j' =>
      have e : i + (j' + 1) = (i + 1) + j' := by omega
      simp only [expectedContents, List.getD_cons_succ, e]
      exact ih (i + 1) j' (by simpa using h)

theorem expectedContents_take_drop (fetch : Nat → Outcome) :
    ∀ (k : Nat) (urls : List String) (i : Nat),
      expectedContents fetch i urls =
        expectedContents fetch i (urls.take k) ++
          expectedContents fetch (i + k) (urls.drop k) := by
  intro k
  induction k with
  | zero => intro urls i; simp [expectedContents]
  | succ k ih =>
    intro urls i
    cases urls with
    | nil => simp [expectedContents]
    | cons u rest =>
      have e : i + (k + 1) = (i + 1) + k := by omega
      simp only [List.take_succ_cons, List.drop_succ_cons, expectedContents,
        List.cons_append, e]
      rw [← ih rest (i + 1)]

theorem zip_gather_map (fetch : Nat → Outcome) :
    ∀ (batch : List String) (i : Nat),
      (batch.zip (gather fetch i batch)).map (fun p => itemContent p.2) =
        expectedContents fetch i batch := by
  intro batch
  induction batch with
  | nil => intro i; rfl
  | cons u rest ih =>
    intro i
    simp only [gather, List.zip_cons_cons, List.map_cons, expectedContents]
    rw [ih (i + 1)]

theorem parLoop_contents (fetch : Nat → Outcome) (mem : Nat → Nat) (kp : Nat) :
    ∀ (n : Nat) (urls : List String), urls.length ≤ n →
      ∀ (i peak samp : Nat),
        (parLoop fetch mem kp urls i peak samp).1 = expectedContents fetch i urls := by
  intro n
  induction n with
  | zero =>
    intro urls h i peak samp
    have hnil : urls = [] := List.eq_nil_of_length_eq_zero (Nat.le_zero.mp h)
    subst hnil
    simp [parLoop, expectedContents]
  | succ n ih =>
    intro urls h i peak samp
    cases urls with
    | nil => simp [parLoop, expectedContents]
    | cons u rest =>
      have hlen : (rest.drop kp).length ≤ n := by
        simp only [List.length_drop]
        simp only [List.length_cons] at h
        omega
      rw [parLoop]
      simp only [zip_gather_map, ih (rest.drop kp) hlen]
      rw [expectedContents_take_drop fetch (kp + 1) (u :: rest) i]
      simp [List.take_succ_cons, List.drop_succ_cons]

theorem foldMax_two (mem : Nat → Nat) (acc lo m : Nat) :
    foldMax mem acc lo (m + 2) =
      foldMax mem (max (max acc (mem lo)) (mem (lo + 1))) (lo + 2) m := rfl

theorem foldMax_snoc (mem : Nat → Nat) :
    ∀ (n acc lo : Nat),
      foldMax mem acc lo (n + 1) = max (foldMax mem acc lo n) (mem (lo + n)) := by
  intro n
  induction n with
  | zero => intro acc lo; simp [foldMax]
  | succ m ih =>
    intro acc lo
    have e1 : foldMax mem acc lo (m + 1 + 1) =
        foldMax mem (max acc (mem lo)) (lo + 1) (m + 1) := rfl
    have e2 : foldMax mem acc lo (m + 1) =
        foldMax mem (max acc (mem lo)) (lo + 1) m := rfl
    rw [e1, ih, ← e2]
    have e3 : lo + 1 + m = lo + (m + 1) := by omega
    rw [e3]

theorem parLoop_peak_samp (fetch : Nat → Outcome) (mem : Nat → Nat) (kp : Nat) :
    ∀ (n : Nat) (urls : List String), urls.length ≤ n →
      ∀ (i peak samp : Nat),
        (parLoop fetch mem kp urls i peak samp).2.1 =
            foldMax mem peak samp (2 * numBatches kp urls.length) ∧
          (parLoop fetch mem kp urls i peak samp).2.2.1 =
            samp + 2 * numBatches kp urls.length := by
  intro n
  induction n with
  | zero =>
    intro urls h i peak samp
    have hnil : urls = [] := List.eq_nil_of_length_eq_zero (Nat.le_zero.mp h)
    subst hnil
    simp [parLoop, numBatches, foldMax]
  | succ n ih =>
    intro urls h i peak samp
    cases urls with
    | nil => simp [parLoop, numBatches, foldMax]
    | cons u rest =>
      have hlen : (rest.drop kp).length ≤ n := by
        simp only [List.length_drop]
        simp only [List.length_cons] at h
        omega
      have hnb : numBatches kp (u :: rest).length =
          numBatches kp (rest.length - kp) + 1 := by
        simp only [List.length_cons]
        rw [numBatches]
      have hdl : (rest.drop kp).length = rest.length - kp := List.length_drop kp rest
      obtain ⟨hp, hs⟩ := ih (rest.drop kp) hlen (i + (kp + 1))
        (max (max peak (mem samp)) (mem (samp + 1))) (samp + 2)
      rw [parLoop]
      simp only [logMemory]
      constructor
      · rw [hp, hdl, hnb, Nat.mul_succ, foldMax_two]
      · rw [hs, hdl, hnb]
        omega

theorem batchEvents_no_close :
    ∀ (batch : List String) (i : Nat), Ev.close ∉ batchEvents i batch := by
  intro batch
  induction batch with
  | nil => intro i h; simp [batchEvents] at h
  | cons u rest ih =>
    intro i h
    simp only [batchEvents, List.mem_cons] at h
    rcases h with h | h
    · exact Ev.noConfusion h
    · exact ih (i + 1) h

theorem parLoop_no_close (fetch : Nat → Outcome) (mem : Nat → Nat) (kp : Nat) :
    ∀ (n : Nat) (urls : List String), urls.length ≤ n →
      ∀ (i peak samp : Nat),
        Ev.close ∉ (parLoop fetch mem kp urls i peak samp).2.2.2 := by
  intro n
  induction n with
  | zero =>
    intro urls h i peak samp
    have hnil : urls = [] := List.eq_nil_of_length_eq_zero (Nat.le_zero.mp h)
    subst hnil
    simp [parLoop]
  | succ n ih =>
    intro urls h i peak samp
    cases urls with
    | nil => simp [parLoop]
    | cons u rest =>
      have hlen : (rest.drop kp).length ≤ n := by
        simp only [List.length_drop]
        simp only [List.length_cons] at h
        omega
      rw [parLoop]
      simp only [List.mem_append]
      intro hc
      rcases hc with hc | hc
      · exact batchEvents_no_close _ i hc
      · exact ih (rest.drop kp) hlen _ _ _ hc

theorem seqLoop_ok (fetch : Nat → Outcome) :
    ∀ (urls : List String) (i : Nat),
      (∀ j, j < urls.length → (fetch (i + j)).isExn = false) →
      seqLoop fetch urls i =
        (Except.ok (expectedContents fetch i urls), sessionEvents i urls) := by
  intro urls
  induction urls with
  | nil => intro i h; rfl
  | cons u rest ih =>
    intro i h
    have h0 : (fetch i).isExn = false := by simpa using h 0 (by simp)
    cases hf : fetch i with
    | exn e => rw [hf] at h0; simp [Outcome.isExn] at h0
    | ok r =>
      have ht : ∀ j, j < rest.length → (fetch ((i + 1) + j)).isExn = false := by
        intro j hj
        have e : (i + 1) + j = i + (j + 1) := by omega
        rw [e]
        exact h (j + 1) (by simpa using Nat.succ_lt_succ hj)
      rw [seqLoop, hf, ih (i + 1) ht]
      simp [expectedContents, sessionEvents, Except.map, itemContent, hf]

theorem seqLoop_no_close (fetch : Nat → Outcome) :
    ∀ (urls : List String) (i : Nat), Ev.close ∉ (seqLoop fetch urls i).2 := by
  intro urls
  induction urls with
  | nil => intro i h; simp [seqLoop] at h
  | cons u rest ih =>
    intro i
    rw [seqLoop]
    cases hf : fetch i with
    | exn e => simp
    | ok r =>
      simp only [List.mem_cons]
      intro hc
      rcases hc with hc | hc
      · exact Ev.noConfusion hc
      · exact ih (i + 1) hc

theorem count_close_one {tr : List Ev} (h : Ev.close ∉ tr) :
    (Ev.start :: tr ++ [Ev.close]).count Ev.close = 1 := by
  simp [List.count_cons, List.count_append, List.count_eq_zero.mpr h]

/-! ### Claims -/

/-- C1, counterexample: on a sitemap index referencing leaf sitemap A
(2 page URLs) and leaf sitemap B (3 page URLs), `get_pydantic_ai_docs_urls`
does not return the flattened sequence of the 5 page URLs: it returns the
two sub-sitemap URLs of the index document, because it never recurses. -/
theorem resolver_flatten_cex :
    get_pydantic_ai_docs_urls testHttp testParse "https://site/sitemap.xml" ≠
      ["https://site/a1", "https://site/a2",
       "https://site/b1", "https://site/b2", "https://site/b3"] := by
  have hval : get_pydantic_ai_docs_urls testHttp testParse "https://site/sitemap.xml" =
      ["https://site/sitemapA.xml", "https://site/sitemapB.xml"] := by
    simp [get_pydantic_ai_docs_urls, testHttp, testParse, locTextsNode, indexDoc,
      locTextsList, locTag, nsQ]
  rw [hval]
  decide

/-- C1, amended: the sitemap resolver does not recurse into sub-sitemaps:
it fetches only the given sitemap URL and returns the texts of all `loc`
elements of that single document, in document order.  For a sitemap index
referencing two leaf sitemaps it therefore returns the two sub-sitemap
URLs, not the page URLs. -/
theorem resolver_returns_single_document_locs
    (httpGet : String → Except String String)
    (fromstring : String → Except String XmlNode)
    (url body : String) (root : XmlNode)
    (h1 : httpGet url = Except.ok body)
    (h2 : fromstring body = Except.ok root) :
    get_pydantic_ai_docs_urls httpGet fromstring url = locTextsNode root := by
  simp [get_pydantic_ai_docs_urls, h1, h2]

/-- Witness for the amended C1 at the two-leaf sitemap index fixture. -/
theorem resolver_returns_single_document_locs_witness :
    testHttp "https://site/sitemap.xml" = Except.ok "indexBody" ∧
    testParse "indexBody" = Except.ok indexDoc ∧
    get_pydantic_ai_docs_urls testHttp testParse "https://site/sitemap.xml" =
      locTextsNode indexDoc :=
  ⟨rfl, rfl,
    resolver_returns_single_document_locs testHttp testParse
      "https://site/sitemap.xml" "indexBody" indexDoc rfl rfl⟩

/-- C2: for every URL list and every `max_concurrent ≥ 1`, `crawl_parallel`
returns (does not raise) a list of the same length as the input whose
element at index `i` is the per-item content (markdown, or the
empty-string sentinel) of the fetch outcome for `urls[i]`; in particular
the empty input yields the empty list. -/
theorem crawl_parallel_length_and_order (fetch : Nat → Outcome) (mem : Nat → Nat)
    (urls : List String) (k : Nat) (hk : 1 ≤ k) :
    ∃ out, (crawl_parallel fetch mem urls k).result = Except.ok out ∧
      out.length = urls.length ∧
      (∀ j, j < urls.length → out.getD j "" = itemContent (fetch j)) ∧
      (crawl_parallel fetch mem [] k).result = Except.ok [] := by
  match k, hk with
  | kp + 1, _ =>
    refine ⟨(parLoop fetch mem kp urls 0 0 0).1, rfl, ?_, ?_, ?_⟩
    · rw [parLoop_contents fetch mem kp urls.length urls (Nat.le_refl _) 0 0 0]
      exact expectedContents_length fetch urls 0
    · intro j hj
      rw [parLoop_contents fetch mem kp urls.length urls (Nat.le_refl _) 0 0 0]
      simpa using expectedContents_getD fetch urls 0 j hj
    · show Except.ok (parLoop fetch mem kp [] 0 0 0).1 = Except.ok []
      rw [parLoop_contents fetch mem kp 0 [] (Nat.le_refl _) 0 0 0]
      rfl

/-- Witness for C2 at a 3-URL list with `max_concurrent = 2`. -/
theorem crawl_parallel_length_and_order_witness :
    1 ≤ 2 ∧
    (∃ out, (crawl_parallel fetchAllOk memFlat ["a", "b", "c"] 2).result =
        Except.ok out ∧
      out.length = (["a", "b", "c"] : List String).length ∧
      (∀ j, j < (["a", "b", "c"] : List String).length →
        out.getD j "" = itemContent (fetchAllOk j)) ∧
      (crawl_parallel fetchAllOk memFlat [] 2).result = Except.ok []) :=
  ⟨by decide,
    crawl_parallel_length_and_order fetchAllOk memFlat ["a", "b", "c"] 2 (by decide)⟩

/-- C3: in `crawl_parallel`, an item whose fetch raised an exception or
returned a `success = False` result gets the empty string in its own
output slot, the run still returns normally, and every sibling item's
slot holds that sibling's own per-item content. -/
theorem crawl_parallel_isolates_item_failure (fetch : Nat → Outcome)
    (mem : Nat → Nat) (urls : List String) (k i : Nat)
    (hk : 1 ≤ k) (hi : i < urls.length) (hfail : (fetch i).isFailure = true) :
    ∃ out, (crawl_parallel fetch mem urls k).result = Except.ok out ∧
      out.getD i "" = "" ∧
      ∀ j, j < urls.length → j ≠ i → out.getD j "" = itemContent (fetch j) := by
  match k, hk with
  | kp + 1, _ =>
    refine ⟨(parLoop fetch mem kp urls 0 0 0).1, rfl, ?_, ?_⟩
    · rw [parLoop_contents fetch mem kp urls.length urls (Nat.le_refl _) 0 0 0]
      have := expectedContents_getD fetch urls 0 i hi
      simp only [Nat.zero_add] at this
      rw [this, itemContent_of_isFailure hfail]
    · intro j hj _
      rw [parLoop_contents fetch mem kp urls.length urls (Nat.le_refl _) 0 0 0]
      simpa using expectedContents_getD fetch urls 0 j hj

/-- Witness for C3: in a 3-item batch whose middle fetch raises, the other
two slots still receive their own contents and slot 1 is empty. -/
theorem crawl_parallel_isolates_item_failure_witness :
    1 ≤ 3 ∧ 1 < (["a", "b", "c"] : List String).length ∧
    (fetchExnAt1 1).isFailure = true ∧
    (∃ out, (crawl_parallel fetchExnAt1 memFlat ["a", "b", "c"] 3).result =
        Except.ok out ∧
      out.getD 1 "" = "" ∧
      ∀ j, j < (["a", "b", "c"] : List String).length → j ≠ 1 →
        out.getD j "" = itemContent (fetchExnAt1 j)) :=
  ⟨by decide, by decide, by decide,
    crawl_parallel_isolates_item_failure fetchExnAt1 memFlat ["a", "b", "c"] 3 1
      (by decide) (by decide) (by decide)⟩

/-- C4: for a run in which no fetch raises, `crawl_sequential` performs the
fetches in input order, all with the single shared session `"session1"`,
returns (without raising) a list of the input's length, and its slot `j`
holds the markdown content on success and the empty string on a
`success = False` failure. -/
theorem crawl_sequential_ok (fetch : Nat → Outcome) (urls : List String)
    (h : ∀ j, j < urls.length → (fetch j).isExn = false) :
    ∃ out, (crawl_sequential fetch urls).1 = Except.ok out ∧
      out.length = urls.length ∧
      (∀ j, j < urls.length → out.getD j "" = itemContent (fetch j)) ∧
      (crawl_sequential fetch urls).2 =
        Ev.start :: sessionEvents 0 urls ++ [Ev.close] := by
  have hloop := seqLoop_ok fetch urls 0 (by intro j hj; simpa using h j hj)
  refine ⟨expectedContents fetch 0 urls, ?_, expectedContents_length fetch urls 0,
    ?_, ?_⟩
  · show (seqLoop fetch urls 0).1 = _
    rw [hloop]
  · intro j hj
    simpa using expectedContents_getD fetch urls 0 j hj
  · show Ev.start :: (seqLoop fetch urls 0).2 ++ [Ev.close] = _
    rw [hloop]

/-- Witness for C4 at a 3-URL list whose middle fetch returns a
`success = False` result. -/
theorem crawl_sequential_ok_witness :
    (∀ j, j < (["a", "b", "c"] : List String).length →
      (fetchFailAt1 j).isExn = false) ∧
    (∃ out, (crawl_sequential fetchFailAt1 ["a", "b", "c"]).1 = Except.ok out ∧
      out.length = (["a", "b", "c"] : List String).length ∧
      (∀ j, j < (["a", "b", "c"] : List String).length →
        out.getD j "" = itemContent (fetchFailAt1 j)) ∧
      (crawl_sequential fetchFailAt1 ["a", "b", "c"]).2 =
        Ev.start :: sessionEvents 0 ["a", "b", "c"] ++ [Ev.close]) :=
  ⟨by decide, crawl_sequential_ok fetchFailAt1 ["a", "b", "c"] (by decide)⟩

/-- C5, counterexample: on a one-URL run with `max_concurrent = 1` the two
memory samples taken immediately before and after the single batch are
`memSpike 0` and `memSpike 1`, yet the tracked peak differs from their
maximum, because the `finally` block takes one more sample (index 2, the
spike) after the crawler is closed. -/
theorem peak_memory_cex :
    (crawl_parallel fetchAllOk memSpike ["u"] 1).peak ≠
      max (memSpike 0) (memSpike 1) := by
  have hval : (crawl_parallel fetchAllOk memSpike ["u"] 1).peak = 7 := by
    simp [crawl_parallel, parLoop, logMemory, memSpike, gather, batchEvents]
  rw [hval]
  decide

/-- C5, amended: after a `crawl_parallel` run with batch size `kp + 1` over
`urls`, the tracked peak equals the maximum of the initial 0 and all
`2 * numBatches + 1` memory samples of the run: the pre- and post-batch
samples of every batch plus the final sample taken in the `finally`
block. -/
theorem peak_memory_includes_final_sample (fetch : Nat → Outcome)
    (mem : Nat → Nat) (urls : List String) (kp : Nat) :
    (crawl_parallel fetch mem urls (kp + 1)).peak =
      foldMax mem 0 0 (2 * numBatches kp urls.length + 1) := by
  obtain ⟨hp, hs⟩ :=
    parLoop_peak_samp fetch mem kp urls.length urls (Nat.le_refl _) 0 0 0
  show (logMemory mem ((parLoop fetch mem kp urls 0 0 0).2.1,
      (parLoop fetch mem kp urls 0 0 0).2.2.1)).1 = _
  simp only [logMemory, hp, hs]
  rw [foldMax_snoc]

/-- C6: the sitemap resolver maps any transport error (timeout, 404 via
`raise_for_status`) and any XML parse error to the empty list; the
surrounding `try/except` means it never raises. -/
theorem resolver_fail_soft (httpGet : String → Except String String)
    (fromstring : String → Except String XmlNode) (url : String)
    (h : (∃ e, httpGet url = Except.error e) ∨
         (∃ b e2, httpGet url = Except.ok b ∧ fromstring b = Except.error e2)) :
    get_pydantic_ai_docs_urls httpGet fromstring url = [] := by
  rcases h with ⟨e, he⟩ | ⟨b, e2, hb, hpb⟩
  · simp [get_pydantic_ai_docs_urls, he]
  · simp [get_pydantic_ai_docs_urls, hb, hpb]

/-- Witness for C6: a timing-out fetch and an unparseable body both yield
the empty list. -/
theorem resolver_fail_soft_witness :
    get_pydantic_ai_docs_urls timeoutHttp testParse "https://site/sitemap.xml" = [] ∧
    get_pydantic_ai_docs_urls garbageHttp testParse "https://site/sitemap.xml" = [] :=
  ⟨resolver_fail_soft timeoutHttp testParse "https://site/sitemap.xml"
      (Or.inl ⟨"ConnectTimeout", rfl⟩),
    resolver_fail_soft garbageHttp testParse "https://site/sitemap.xml"
      (Or.inr ⟨"not xml at all", "ParseError: syntax error", rfl, rfl⟩)⟩

/-- C7: in both `crawl_sequential` and `crawl_parallel` the crawler started
at the beginning of the run is closed exactly once on every execution
path — also when a sequential fetch raises mid-run (the loop aborts with
the error but the `finally` still closes), and also on the
`max_concurrent = 0` `ValueError` path of the parallel run. -/
theorem crawler_closed_exactly_once (fetch : Nat → Outcome) (mem : Nat → Nat)
    (urls : List String) (k : Nat) :
    ((crawl_sequential fetch urls).2).count Ev.close = 1 ∧
    ((crawl_parallel fetch mem urls k).trace).count Ev.close = 1 := by
  constructor
  · exact count_close_one (seqLoop_no_close fetch urls 0)
  · match k with
    | 0 => rfl
    | kp + 1 =>
      exact count_close_one
        (parLoop_no_close fetch mem kp urls.length urls (Nat.le_refl _) 0 0 0)

/-- C8, code evaluated at the failing input: the synchronous `/crawl`
handler calls the `async def fetch_urls` without awaiting it, so
`jsonify` receives a coroutine object and raises `TypeError`; every
validly parsed request is therefore answered 500 with a `{detail}` body,
never with the JSON array of contents. -/
theorem crawl_urls_always_500_coroutine (urls : List String) :
    crawl_urls (Except.ok urls) =
      ⟨500, ReplyBody.jsonDetail
        "TypeError: Object of type coroutine is not JSON serializable"⟩ := rfl

/-- C9: `fetch_urls` never raises: the empty input returns `[]` before any
crawler is created, and when the crawler setup fails the outer `except`
returns `[]` even for a non-empty input, so the output (length 0) is then
shorter than the input. -/
theorem fetch_urls_fail_soft (setup : Except String Unit) (fetch : Nat → Outcome)
    (urls : List String) (e : String)
    (hs : setup = Except.error e) (hne : urls ≠ []) :
    (∀ s : Except String Unit, fetch_urls s fetch [] = []) ∧
    fetch_urls setup fetch urls = [] ∧
    (fetch_urls setup fetch urls).length < urls.length := by
  subst hs
  cases urls with
  | nil => exact absurd rfl hne
  | cons u rest =>
    refine ⟨fun s => rfl, rfl, ?_⟩
    show (0 : Nat) < rest.length + 1
    omega

/-- Witness for C9: with a failing crawler setup and one input URL the
result is `[]`, strictly shorter than the input. -/
theorem fetch_urls_fail_soft_witness :
    (∀ s : Except String Unit, fetch_urls s fetchAllOk [] = []) ∧
    fetch_urls (Except.error "browser failed") fetchAllOk ["https://site/a1"] = [] ∧
    (fetch_urls (Except.error "browser failed") fetchAllOk
      ["https://site/a1"]).length < (["https://site/a1"] : List String).length :=
  fetch_urls_fail_soft (Except.error "browser failed") fetchAllOk
    ["https://site/a1"] "browser failed" rfl (by simp)

/-- C10: when the resolved sitemap yields zero URLs, the `/website-url`
handler only logs and falls off the end of the function: it returns
Python `None` — no JSON array, no `{detail}` object. -/
theorem website_url_none_on_empty_sitemap (parsed : Except String String)
    (httpGet : String → Except String String)
    (fromstring : String → Except String XmlNode)
    (fetch : Nat → Outcome) (mem : Nat → Nat) (url : String)
    (hp : parsed = Except.ok url)
    (h : get_pydantic_ai_docs_urls httpGet fromstring url = []) :
    crawl_website parsed httpGet fromstring fetch mem = none := by
  subst hp
  simp [crawl_website, h]

/-- Witness for C10: a timing-out sitemap fetch resolves to zero URLs and
the handler returns `none`. -/
theorem website_url_none_on_empty_sitemap_witness :
    get_pydantic_ai_docs_urls timeoutHttp testParse "https://x/sitemap.xml" = [] ∧
    crawl_website (Except.ok "https://x/sitemap.xml") timeoutHttp testParse
      fetchAllOk memFlat = none :=
  ⟨rfl,
    website_url_none_on_empty_sitemap (Except.ok "https://x/sitemap.xml")
      timeoutHttp testParse fetchAllOk memFlat "https://x/sitemap.xml" rfl rfl⟩

end CrawlServer
